import Mathlib

/-!
Shallow embedding of the real-time processing-status synchronization core of
the research-automation dashboard:

* `frontend/src/hooks/useProcessingStore.ts` — the Job State Store (zustand
  store): `ProcessingState`, `handleWebSocketMessage`, `loadProcessingStatus`,
  `startProcessing`, `reset`.
* `frontend/src/hooks/useWebSocket.ts` — the connection hook: connect /
  disconnect / reconnection policy / heartbeat / subscriber fan-out, embedded
  as a small-step event machine.
* `frontend/src/components/providers/WebSocketProvider.tsx` — the notifier
  glue: a subscriber that applies `handleWebSocketMessage` and shows a user
  notification for `processing_complete` / `processing_error` messages.

JavaScript conventions encoded here:
* A partial payload (object spread `{...state, ...data}`) is a record of
  `Option` fields; a present field overwrites, an absent one keeps the old
  value (`Option.getD`).
* A nullable field (`string | null` / possibly-`undefined`) is `Option String`;
  a *payload slot* for such a field is `Option (Option String)` (outer: key
  present in the delta, inner: null vs value).
* `x || fallback` on strings falls through on `undefined`/`null`/`""` — see
  `jsOr`.
* `if (data)` truthiness on an object-valued field is `Option.isSome`
  (an absent / null payload takes the falsy branch).
-/

namespace ProcessingCore

/-- Values of `ProcessingState.status` (useProcessingStore.ts). -/
inductive JobStatus where
  | idle
  | running
  | completed
  | error
deriving DecidableEq, Repr

/-- Log levels of `ProcessingLogEntry` (useProcessingStore.ts). -/
inductive LogLevel where
  | info
  | warning
  | error
  | debug
deriving DecidableEq, Repr

/-- Record `ProcessingLogEntry` (useProcessingStore.ts). -/
structure ProcessingLogEntry where
  timestamp : String
  level : LogLevel
  message : String
  step : Option String
  progress : Option Int
deriving DecidableEq, Repr

/-- Record `ProcessingResults` (useProcessingStore.ts): named optional counters. -/
structure ProcessingResults where
  content_fetched : Option Int := none
  summaries_generated : Option Int := none
  insights_extracted : Option Int := none
  links_processed : Option Int := none
  exports_generated : Option Int := none
deriving DecidableEq, Repr

/-- Record `ProcessingState` (useProcessingStore.ts). -/
structure ProcessingState where
  status : JobStatus
  current_step : String
  progress : Int
  total_steps : Int
  start_time : Option String
  end_time : Option String
  error_message : Option String
  results : ProcessingResults
  logs : List ProcessingLogEntry
deriving DecidableEq, Repr

/-- Constant `defaultProcessingState` (useProcessingStore.ts lines 75-85). -/
def defaultProcessingState : ProcessingState :=
  { status := .idle
    current_step := ""
    progress := 0
    total_steps := 0
    start_time := none
    end_time := none
    error_message := none
    results := {}
    logs := [] }

/-- A partial `ProcessingState` as carried in a WebSocket `data` payload or a
snapshot response body: each field is present (overwrites on spread) or
absent (keeps the existing value). -/
structure StateDelta where
  status : Option JobStatus := none
  current_step : Option String := none
  progress : Option Int := none
  total_steps : Option Int := none
  start_time : Option (Option String) := none
  end_time : Option (Option String) := none
  error_message : Option (Option String) := none
  results : Option ProcessingResults := none
  logs : Option (List ProcessingLogEntry) := none
deriving DecidableEq, Repr

/-- JavaScript object spread `{...s, ...d}`: fields present in `d` overwrite,
absent fields keep `s`'s value. -/
def mergeDelta (s : ProcessingState) (d : StateDelta) : ProcessingState :=
  { status := d.status.getD s.status
    current_step := d.current_step.getD s.current_step
    progress := d.progress.getD s.progress
    total_steps := d.total_steps.getD s.total_steps
    start_time := d.start_time.getD s.start_time
    end_time := d.end_time.getD s.end_time
    error_message := d.error_message.getD s.error_message
    results := d.results.getD s.results
    logs := d.logs.getD s.logs }

/-- Payload of a `processing_error` message (wire shape
`{state?: partial JobState, error: string}`; the `error` key may itself be
absent since `data` is untyped in the source). -/
structure ErrorPayload where
  state : Option StateDelta := none
  error : Option String := none
deriving DecidableEq, Repr

/-- Type `WebSocketMessage` (useWebSocket.ts lines 4-7): tagged by the `type`
string; `data` is optional (`Option.none` models an absent / null / falsy
`data`, i.e. the `if (data)` guard failing). -/
inductive WSMessage where
  | status_update (data : Option StateDelta)
  | processing_update (data : Option StateDelta)
  | processing_complete (data : Option StateDelta)
  | processing_error (data : Option ErrorPayload)
  | pong
deriving DecidableEq, Repr

/-- Record `ProcessingStats` (useProcessingStore.ts). -/
structure ProcessingStats where
  total_summaries : Int
  summaries_last_week : Int
  total_links : Int
  total_insights : Int
  last_run : Option String
  api_calls_today : Int
deriving DecidableEq, Repr

/-- The zustand store state of `useProcessingStore` (useProcessingStore.ts
lines 45-72, data fields only).  `stats` is only written by the asynchronous
`loadStatistics` fetch, which is an external request/response call; no
synchronous store operation modifies it. -/
structure StoreState where
  processingState : ProcessingState
  stats : Option ProcessingStats
  isLoading : Bool
  error : Option String
  isWebSocketConnected : Bool
deriving DecidableEq, Repr

/-- Initial store state (useProcessingStore.ts lines 90-95). -/
def initialStoreState : StoreState :=
  { processingState := defaultProcessingState
    stats := none
    isLoading := false
    error := none
    isWebSocketConnected := false }

/-- JavaScript `x || fallback` for a possibly-absent string: falls through to
the fallback on `undefined`/`null` and on the empty string (both falsy). -/
def jsOr (x : Option String) (fallback : String) : String :=
  match x with
  | some s => if s = "" then fallback else s
  | none => fallback

/-- Function `handleWebSocketMessage` (useProcessingStore.ts lines 184-236): the switch
on `message.type`.  `status_update` and `processing_update` share one branch
(fallthrough in the source); each data-carrying branch is guarded by
`if (data)`.  The `processing_complete` branch additionally triggers the
asynchronous statistics reload (`get().loadStatistics()`), an external fetch
that does not synchronously change the store.  In the `processing_error`
branch the source builds
`{...state.processingState, ...data.state, status: 'error',
  error_message: data.error}` and also sets the store-level `error` field to
`data.error`. -/
def handleWebSocketMessage (m : WSMessage) (s : StoreState) : StoreState :=
  match m with
  | .status_update data | .processing_update data =>
    match data with
    | some d => { s with processingState := mergeDelta s.processingState d }
    | none => s
  | .processing_complete data =>
    match data with
    | some d =>
      { s with processingState :=
          { mergeDelta s.processingState d with status := .completed } }
    | none => s
  | .processing_error data =>
    match data with
    | some p =>
      let merged := match p.state with
        | some st => mergeDelta s.processingState st
        | none => s.processingState
      { s with
          processingState :=
            { merged with status := .error, error_message := p.error }
          error := p.error }
    | none => s
  | .pong => s

/-- Function `loadProcessingStatus` (useProcessingStore.ts lines 98-118).  The call
first sets `{isLoading: true, error: null}`; on a successful response it
replaces `processingState` wholesale with `{...defaultProcessingState,
...status}` (the server body `status` is a partial record); on failure it sets
the error message (`error.response?.data?.detail || 'Failed to load
processing status'`) and leaves `processingState` untouched. -/
def loadProcessingStatus (result : Except (Option String) StateDelta)
    (s : StoreState) : StoreState :=
  let s1 := { s with isLoading := true, error := none }
  match result with
  | .ok status =>
    { s1 with
        processingState := mergeDelta defaultProcessingState status
        isLoading := false }
  | .error e =>
    { s1 with
        error := some (jsOr e "Failed to load processing status")
        isLoading := false }

/-- Function `startProcessing` (useProcessingStore.ts lines 142-167).  First sets
`{isLoading: true, error: null}`; if the backend `start` call succeeds the
`processingState` is put into a fresh `running` episode (`start_time = now`,
progress 0, cleared terminal fields and logs); if it fails, only `error` and
`isLoading` are set and the exception is re-thrown.  The returned second
component is the re-thrown error (`some e` iff the call threw). -/
def startProcessing (apiResult : Except (Option String) Unit) (now : String)
    (s : StoreState) : StoreState × Option (Option String) :=
  let s1 := { s with isLoading := true, error := none }
  match apiResult with
  | .ok _ =>
    ({ s1 with
        processingState :=
          { s1.processingState with
              status := .running
              start_time := some now
              end_time := none
              error_message := none
              progress := 0
              current_step := "Starting..."
              logs := [] }
        isLoading := false }, none)
  | .error e =>
    ({ s1 with
        error := some (jsOr e "Failed to start processing")
        isLoading := false }, some e)

/-! ### WebSocketProvider: notifier subscriber
(`frontend/src/components/providers/WebSocketProvider.tsx`, lines 48-73)

The provider registers one subscriber that first calls
`handleWebSocketMessage(message)` and then (unconditionally on message type,
with no occurrence tracking) shows a "Processing Complete" notification for
every `processing_complete` message and a "Processing Failed" notification
for every `processing_error` message. -/

/-- A user-facing notification as shown by the provider's subscriber. -/
inductive UINotification where
  | processingComplete
  | processingFailed (message : String)
deriving DecidableEq, Repr

/-- The notifications raised by the provider's subscriber for one inbound
message (WebSocketProvider.tsx lines 53-69): one per `processing_complete` /
`processing_error` message, none otherwise. -/
def providerNotifications (m : WSMessage) : List UINotification :=
  match m with
  | .processing_complete _ => [.processingComplete]
  | .processing_error data =>
    [.processingFailed
      (jsOr (data.bind ErrorPayload.error) "An error occurred during processing")]
  | _ => []

/-- The provider's subscriber callback for one message: update the Job State
Store, then raise the notifications for this message. -/
def providerOnMessage (s : StoreState) (m : WSMessage) :
    StoreState × List UINotification :=
  (handleWebSocketMessage m s, providerNotifications m)

/-- Deliver a sequence of inbound messages through the provider's subscriber,
accumulating the notifications raised (in order). -/
def processEvents (ms : List WSMessage) (s : StoreState) :
    StoreState × List UINotification :=
  ms.foldl
    (fun acc m =>
      let r := providerOnMessage acc.1 m
      (r.1, acc.2 ++ r.2))
    (s, [])

/-! ### useWebSocket: connection lifecycle, reconnection policy, heartbeat
(`frontend/src/hooks/useWebSocket.ts`)

The hook is embedded as a deterministic small-step machine.  The mutable
refs/state of the hook form `HookState`; the browser/network environment
drives it with `HookEvent`s:

* `connectCall` / `disconnectCall` — the consumer invokes `connect()` /
  `disconnect()`;
* `sockOpen i` / `sockClose i` / `sockError i` — the transport fires the
  `onopen` / `onclose` / `onerror` handler of the `i`-th `WebSocket` object
  ever constructed (handlers stay attached to their socket object even after
  `websocketRef` is cleared or repointed, exactly as in the browser);
* `timerFire` — a pending `setTimeout(connect, reconnectInterval)` fires.

Each socket object is tracked by the phase of its own lifecycle: `connecting`
(constructed, not yet open), `opened`, `closed` (its close event has been
delivered).  An event that its guard rules out (e.g. `sockOpen` on a socket
that is not connecting, `timerFire` with no pending timer) is a no-op: the
corresponding browser callback cannot fire then. -/

/-- Lifecycle phase of one constructed `WebSocket` object. -/
inductive SockPhase where
  | connecting
  | opened
  | closed
deriving DecidableEq, Repr

/-- Values of the `connectionStatus` state (useWebSocket.ts line 27). -/
inductive ConnStatus where
  | connecting
  | connected
  | disconnected
  | error
deriving DecidableEq, Repr

/-- The hook's refs and React state (useWebSocket.ts lines 26-35).
`sockets` lists every `WebSocket` constructed so far by its phase (index =
construction order); `wsRef` is `websocketRef.current` (the index it points
to, if any); `reconnectTimer` is whether `reconnectTimeoutRef` holds a
pending timeout; `pingActive` is whether `pingIntervalRef` holds a live
heartbeat interval. -/
structure HookState where
  sockets : List SockPhase
  wsRef : Option Nat
  isConnected : Bool
  connectionStatus : ConnStatus
  reconnectTimer : Bool
  reconnectAttempts : Nat
  pingActive : Bool
  lastError : Option String
deriving DecidableEq, Repr

/-- Initial hook state (useWebSocket.ts lines 26-35): no socket, status
`disconnected`, attempt counter 0, no timers. -/
def initHookState : HookState :=
  { sockets := []
    wsRef := none
    isConnected := false
    connectionStatus := .disconnected
    reconnectTimer := false
    reconnectAttempts := 0
    pingActive := false
    lastError := none }

/-- Events driving the hook machine. -/
inductive HookEvent where
  | connectCall
  | disconnectCall
  | timerFire
  | sockOpen (i : Nat)
  | sockClose (i : Nat)
  | sockError (i : Nat)
deriving DecidableEq, Repr

/-- Function `cleanup` (useWebSocket.ts lines 37-50): clear the pending reconnect
timeout and the heartbeat interval, call `.close()` on the referenced socket
(its close event, if still due, is delivered later by the environment as a
`sockClose`), and null out `websocketRef`. -/
def cleanup (s : HookState) : HookState :=
  { s with reconnectTimer := false, pingActive := false, wsRef := none }

/-- Function `connect` (useWebSocket.ts lines 52-132): no-op if the referenced socket
is OPEN; otherwise `cleanup()`, status `connecting`, clear the error, and
construct a fresh `WebSocket` (appended to `sockets`, phase `connecting`),
pointing `websocketRef` at it. -/
def connectFn (s : HookState) : HookState :=
  let isOpen : Bool := match s.wsRef with
    | some i => s.sockets.get? i = some SockPhase.opened
    | none => false
  if isOpen then s
  else
    let s := cleanup s
    let s := { s with connectionStatus := .connecting, lastError := none }
    { s with
        sockets := s.sockets ++ [SockPhase.connecting]
        wsRef := some s.sockets.length }

/-- Function `disconnect` (useWebSocket.ts lines 134-138): `cleanup()`, then
`isConnected := false` and status `disconnected`. -/
def disconnectFn (s : HookState) : HookState :=
  let s := cleanup s
  { s with isConnected := false, connectionStatus := .disconnected }

/-- The `onopen` handler of socket `i` (useWebSocket.ts lines 68-81): only a
connecting socket can open.  Sets `isConnected`, status `connected`, clears
the error, resets the reconnection attempt counter to 0, and starts the
heartbeat interval. -/
def sockOpenStep (i : Nat) (s : HookState) : HookState :=
  if s.sockets.get? i = some SockPhase.connecting then
    { s with
        sockets := s.sockets.set i SockPhase.opened
        isConnected := true
        connectionStatus := .connected
        lastError := none
        reconnectAttempts := 0
        pingActive := true }
  else s

/-- The `onclose` handler of socket `i` (useWebSocket.ts lines 101-119): the
close event fires once, for a socket not already closed.  Sets
`isConnected := false`, status `disconnected`, clears the heartbeat interval,
and — if the attempt counter is still below `maxReconnectAttempts` —
increments it and schedules a reconnect timeout.  Nothing in the handler
distinguishes a close caused by `disconnect()` from a network drop. -/
def sockCloseStep (maxReconnectAttempts : Nat) (i : Nat) (s : HookState) :
    HookState :=
  match s.sockets.get? i with
  | some SockPhase.connecting | some SockPhase.opened =>
    let s := { s with
        sockets := s.sockets.set i SockPhase.closed
        isConnected := false
        connectionStatus := .disconnected
        pingActive := false }
    if s.reconnectAttempts < maxReconnectAttempts then
      { s with
          reconnectAttempts := s.reconnectAttempts + 1
          reconnectTimer := true }
    else s
  | _ => s

/-- The `onerror` handler of socket `i` (useWebSocket.ts lines 121-125): sets
status `error` and the error message; fires only for a socket that is not
yet closed. -/
def sockErrorStep (i : Nat) (s : HookState) : HookState :=
  match s.sockets.get? i with
  | some SockPhase.connecting | some SockPhase.opened =>
    { s with
        connectionStatus := .error
        lastError := some "WebSocket connection error" }
  | _ => s

/-- The pending reconnect timeout fires (useWebSocket.ts lines 115-117): the
timeout is spent, then `connect()` runs. -/
def timerFireStep (s : HookState) : HookState :=
  if s.reconnectTimer then connectFn { s with reconnectTimer := false }
  else s

/-- One step of the hook machine. -/
def hookStep (maxReconnectAttempts : Nat) (e : HookEvent) (s : HookState) :
    HookState :=
  match e with
  | .connectCall => connectFn s
  | .disconnectCall => disconnectFn s
  | .timerFire => timerFireStep s
  | .sockOpen i => sockOpenStep i s
  | .sockClose i => sockCloseStep maxReconnectAttempts i s
  | .sockError i => sockErrorStep i s

/-- Run a sequence of events through the hook machine. -/
def runHook (maxReconnectAttempts : Nat) (evs : List HookEvent)
    (s : HookState) : HookState :=
  evs.foldl (fun st e => hookStep maxReconnectAttempts e st) s

/-! ### Subscriber Registry (useWebSocket.ts lines 83-99 and 149-156)

`subscribe(callback)` adds the callback to `messageCallbacksRef` and returns
a remover; the `onmessage` handler iterates over the registered callbacks and
invokes each inside its own `try { callback(message) } catch { log }` so that
one callback throwing does not stop the loop.  A subscriber is modelled as a
callback together with its private state; a callback either returns its new
state or throws (`Except.error`). -/

/-- A registered subscriber: a message callback over a private state `σ`
(throwing is `Except.error`). -/
structure Subscriber (σ : Type) where
  callback : WSMessage → σ → Except String σ
  state : σ

/-- Deliver one message to one subscriber, with the per-callback `try/catch`
of the `onmessage` handler (useWebSocket.ts lines 90-94): a thrown error is
caught and logged, leaving the subscriber's state as it was. -/
def deliver (m : WSMessage) (sub : Subscriber σ) : Subscriber σ :=
  match sub.callback m sub.state with
  | .ok st => { sub with state := st }
  | .error _ => sub

/-- The `onmessage` fan-out (useWebSocket.ts lines 88-95): every registered
subscriber is invoked on the message, each inside its own try/catch. -/
def fanOut (subs : List (Subscriber σ)) (m : WSMessage) :
    List (Subscriber σ) :=
  subs.map (deliver m)

/-- Deliver an arrival-ordered stream of messages through the registry. -/
def runStream (subs : List (Subscriber σ)) (ms : List WSMessage) :
    List (Subscriber σ) :=
  ms.foldl fanOut subs

/-- What one subscriber alone observes from the stream: its own callback
folded over every message in arrival order (with its own try/catch). -/
def subRun (sub : Subscriber σ) (ms : List WSMessage) : Subscriber σ :=
  ms.foldl (fun t m => deliver m t) sub

/-! ### Concrete fixtures used by counterexamples and witnesses -/

/-- A delta carrying only a `progress` field. -/
def progressDelta (p : Int) : StateDelta := { progress := some p }

/-- The payload of Scenario B's `processing_complete`:
`{results: {summaries_generated: 5}}` — no `end_time` field. -/
def completeDelta : StateDelta :=
  { results := some { summaries_generated := some 5 } }

/-- A `processing_complete` message with a non-empty payload. -/
def completeMsg : WSMessage := .processing_complete (some completeDelta)

/-- The store right after a successful `startProcessing`: a fresh `running`
episode. -/
def runningStore : StoreState :=
  (startProcessing (.ok ()) "2026-01-01T00:00:00Z" initialStoreState).1

/-- The store `runningStore` after a `status_update {progress: 5}` delta. -/
def runningStore5 : StoreState :=
  handleWebSocketMessage (.status_update (some (progressDelta 5))) runningStore

/-- The store `runningStore5` after `processing_complete` (terminal `completed` state,
reached with no `end_time` in any payload). -/
def terminalStore : StoreState :=
  handleWebSocketMessage completeMsg runningStore5

/-- Repeated `Option.getD` lookups collapse: merging the same delta field
twice is the same as merging it once. -/
theorem getD_getD (o : Option α) (x : α) : o.getD (o.getD x) = o.getD x := by
  cases o <;> rfl

/-- Merging the same delta twice equals merging it once (object spread with
a fixed payload is idempotent). -/
theorem mergeDelta_idem (s : ProcessingState) (d : StateDelta) :
    mergeDelta (mergeDelta s d) d = mergeDelta s d := by
  simp [mergeDelta, getD_getD]

/-! ### C1 — idempotence of `processing_complete` vs. duplicate notifications -/

/-- C1 (counterexample): delivering the same `processing_complete` event
(non-empty payload) twice to a running store leaves the store state exactly as
after one delivery, but the provider raises a "Processing Complete"
notification on *each* delivery — two in total, where the claim requires
exactly one with no duplicate on the second application. -/
theorem processing_complete_twice_raises_two_notifications :
    (processEvents [completeMsg, completeMsg] runningStore).2
      = [.processingComplete, .processingComplete]
    ∧ (processEvents [completeMsg] runningStore).2 = [.processingComplete]
    ∧ (processEvents [completeMsg, completeMsg] runningStore).1
      = (processEvents [completeMsg] runningStore).1 := by
  refine ⟨rfl, rfl, by decide⟩

/-- C1 (amended): applying the same `processing_complete` event (with a
payload) twice yields the same store state as applying it once — the merge is
idempotent — but the notifier has no occurrence tracking: it raises one
"Processing Complete" notification per delivered message, so the second
application raises a duplicate. -/
theorem processing_complete_idempotent_state_one_notification_per_message
    (s : StoreState) (d : StateDelta) :
    handleWebSocketMessage (.processing_complete (some d))
        (handleWebSocketMessage (.processing_complete (some d)) s)
      = handleWebSocketMessage (.processing_complete (some d)) s
    ∧ (processEvents
        [.processing_complete (some d), .processing_complete (some d)] s).2
      = [.processingComplete, .processingComplete]
    ∧ providerNotifications (.processing_complete (some d))
      = [.processingComplete] := by
  refine ⟨?_, rfl, rfl⟩
  simp [handleWebSocketMessage, mergeDelta, getD_getD]

/-! ### C3 — terminal states are not protected from late deltas -/

/-- C3 (counterexample): `terminalStore` is `completed` with `progress = 5`,
yet a late `status_update {progress: 7}` mutates it (progress becomes 7),
with no intervening `start`.  The claim says no late `status_update` /
`processing_update` mutates a terminal state. -/
theorem late_status_update_mutates_terminal_state :
    terminalStore.processingState.status = .completed
    ∧ terminalStore.processingState.progress = 5
    ∧ (handleWebSocketMessage (.status_update (some (progressDelta 7)))
        terminalStore).processingState.progress = 7
    ∧ handleWebSocketMessage (.status_update (some (progressDelta 7)))
        terminalStore ≠ terminalStore := by
  refine ⟨rfl, rfl, rfl, by decide⟩

/-- C3 (amended): the `status_update`/`processing_update` branch shallow-
merges its payload into the state unconditionally — the current status (in
particular a terminal one) is never consulted — so a late delta does mutate a
`completed`/`error` state; only a message whose payload is absent leaves the
store unchanged. -/
theorem status_update_merges_unconditionally (s : StoreState) (d : StateDelta) :
    (handleWebSocketMessage (.status_update (some d)) s).processingState
      = mergeDelta s.processingState d
    ∧ (handleWebSocketMessage (.processing_update (some d)) s).processingState
      = mergeDelta s.processingState d
    ∧ handleWebSocketMessage (.status_update none) s = s
    ∧ handleWebSocketMessage (.processing_update none) s = s :=
  ⟨rfl, rfl, rfl, rfl⟩

/-! ### C4 — progress is not monotone under `status_update` deltas -/

/-- Deliver a sequence of `status_update` deltas to the store. -/
def applyStatusUpdates (ds : List StateDelta) (s : StoreState) : StoreState :=
  ds.foldl
    (fun st d => handleWebSocketMessage (.status_update (some d)) st) s

/-- C4 (counterexample): within a single running episode (no intervening
start), a `status_update {progress: 3}` after `progress = 5` moves progress
backward to 3 — the claim's monotonicity fails. -/
theorem status_update_moves_progress_backward :
    runningStore5.processingState.status = .running
    ∧ runningStore5.processingState.progress = 5
    ∧ (applyStatusUpdates [progressDelta 3]
        runningStore5).processingState.progress = 3 :=
  ⟨rfl, rfl, rfl⟩

/-- C4 (amended): the store imposes no monotonicity on `progress`.  For every
sequence of `status_update` deltas, the resulting `progress` is simply the
value carried by the last delta that includes a `progress` field (the initial
progress if none does); it is non-decreasing only when the deltas' own
`progress` values arrive non-decreasing. -/
theorem applyStatusUpdates_progress_is_last_carried (s : StoreState)
    (ds : List StateDelta) :
    (applyStatusUpdates ds s).processingState.progress
      = ds.foldl (fun p d => d.progress.getD p)
          s.processingState.progress := by
  induction ds generalizing s with
  | nil => rfl
  | cons d ds ih =>
      exact ih (handleWebSocketMessage (.status_update (some d)) s)

/-! ### C5 — `processing_error` without a payload -/

/-- C5 (counterexample): a `processing_error` whose `data` is absent (not
decodable as an object) is ignored by the `if (data)` guard: the running
store is left completely unchanged — status stays `running` and no generic
error message is set, where the claim requires a transition to `error` with a
generic message. -/
theorem processing_error_without_payload_is_ignored :
    handleWebSocketMessage (.processing_error none) runningStore5
      = runningStore5
    ∧ runningStore5.processingState.status = .running
    ∧ runningStore5.processingState.error_message = none :=
  ⟨rfl, rfl, rfl⟩

/-- C5 (amended): a `processing_error` without a decodable payload leaves the
store completely unchanged (no transition, so the existing state is neither
crashed nor corrupted — but also no `error` status and no generic message);
a `processing_error` *with* a payload transitions to `error` and copies the
payload's `error` field verbatim into `error_message` and the store-level
`error` (possibly unset, never a generic message). -/
theorem processing_error_payload_policy (s : StoreState) (p : ErrorPayload) :
    handleWebSocketMessage (.processing_error none) s = s
    ∧ (handleWebSocketMessage (.processing_error (some p))
        s).processingState.status = .error
    ∧ (handleWebSocketMessage (.processing_error (some p))
        s).processingState.error_message = p.error
    ∧ (handleWebSocketMessage (.processing_error (some p)) s).error
        = p.error :=
  ⟨rfl, rfl, rfl, rfl⟩

/-! ### C6 — `endTime` on completion -/

/-- C6 (counterexample): Scenario B's run — `start`, a progress delta, then
`processing_complete {results: {summaries_generated: 5}}` (no `end_time` in
the payload) — ends `completed` with `end_time = null`: the code never sets
`endTime = now`, so "`endTime` is set iff status is terminal" fails. -/
theorem completed_state_with_no_endTime :
    terminalStore.processingState.status = .completed
    ∧ terminalStore.processingState.end_time = none :=
  ⟨rfl, rfl⟩

/-- C6 (amended): on a `processing_complete` event with a payload the store
sets `status = completed` and takes `end_time` from the payload when the
payload carries one, otherwise leaving it unchanged from the prior state —
it never synthesizes `endTime = now`, so a completed state can lack an end
time. -/
theorem processing_complete_endTime_from_payload_only (s : StoreState)
    (d : StateDelta) :
    (handleWebSocketMessage (.processing_complete (some d))
        s).processingState.status = .completed
    ∧ (handleWebSocketMessage (.processing_complete (some d))
        s).processingState.end_time
      = d.end_time.getD s.processingState.end_time :=
  ⟨rfl, rfl⟩

/-! ### C8 — snapshot load overwrites the whole state -/

/-- C8: a successful `loadProcessingStatus` replaces `processingState`
wholesale with the server response completed by `defaultProcessingState` for
absent fields; the result is independent of the prior local state (no
field-by-field merge with it). -/
theorem loadProcessingStatus_overwrites (s s' : StoreState) (r : StateDelta) :
    (loadProcessingStatus (.ok r) s).processingState
      = mergeDelta defaultProcessingState r
    ∧ (loadProcessingStatus (.ok r) s).processingState
      = (loadProcessingStatus (.ok r) s').processingState :=
  ⟨rfl, rfl⟩

/-! ### C9 — fan-out isolation of subscribers -/

/-- C9: delivering a stream of messages through the registry is the same as
letting each subscriber fold its own callback over *every* message in arrival
order: each registered subscriber observes the full stream, in order, and its
outcome is independent of the other subscribers — in particular, another
subscriber's callback throwing (caught per-callback) cannot prevent or
reorder its deliveries, and no subscriber is dropped. -/
theorem runStream_delivers_to_each_subscriber {σ : Type}
    (subs : List (Subscriber σ)) (ms : List WSMessage) :
    runStream subs ms = subs.map (fun sub => subRun sub ms) := by
  induction ms generalizing subs with
  | nil =>
      show subs = subs.map (fun sub => subRun sub [])
      exact (List.map_id subs).symm
  | cons m ms ih =>
      calc runStream subs (m :: ms)
          = runStream (fanOut subs m) ms := rfl
        _ = (fanOut subs m).map (fun sub => subRun sub ms) := ih _
        _ = subs.map (fun sub => subRun sub (m :: ms)) := by
            rw [fanOut, List.map_map]; rfl

/-! ### C10 — failed `startProcessing` leaves the record unchanged -/

/-- C10: when the backend `start` call fails, `processingState` (and every
other field except `error` and `isLoading`) is exactly as before the call;
`isLoading` ends `false`, `error` carries the failure detail (or its
fallback), and the exception is re-thrown to the caller. -/
theorem startProcessing_failure_preserves_state (s : StoreState)
    (e : Option String) (now : String) :
    (startProcessing (.error e) now s).1.processingState = s.processingState
    ∧ (startProcessing (.error e) now s).1.stats = s.stats
    ∧ (startProcessing (.error e) now s).1.isWebSocketConnected
        = s.isWebSocketConnected
    ∧ (startProcessing (.error e) now s).1.isLoading = false
    ∧ (startProcessing (.error e) now s).1.error
        = some (jsOr e "Failed to start processing")
    ∧ (startProcessing (.error e) now s).2 = some e :=
  ⟨rfl, rfl, rfl, rfl, rfl, rfl⟩

/-! ### C2 — the zombie reconnect after an intentional `disconnect()` -/

/-- The trace of an intentional shutdown of a live connection: `connect()`,
the socket opens, then the consumer calls `disconnect()`.  `disconnect()`
calls `.close()` on the open socket, so the browser subsequently delivers
that socket's close event (`sockClose 0`). -/
def disconnectTrace : List HookEvent :=
  [.connectCall, .sockOpen 0, .disconnectCall]

/-- C2 (code evaluated at the failing input): right after `disconnect()` the
status is `disconnected` with no pending timer — but when the close event of
the socket that `disconnect()` just closed is delivered, the `onclose`
handler (which cannot tell an intentional close from a network drop) finds
`reconnectAttempts = 0 < maxReconnectAttempts` and schedules a reconnect;
when that timer fires, a second `WebSocket` is constructed and the hook is
`connecting` again.  So `disconnect()` on a live connection does *not*
result in zero further connection attempts, contrary to the claim (and to
the spec's own cancellation requirement). -/
theorem disconnect_then_close_schedules_reconnect :
    (runHook 5 disconnectTrace initHookState).connectionStatus
      = .disconnected
    ∧ (runHook 5 disconnectTrace initHookState).reconnectTimer = false
    ∧ (runHook 5 (disconnectTrace ++ [.sockClose 0])
        initHookState).reconnectTimer = true
    ∧ (runHook 5 (disconnectTrace ++ [.sockClose 0])
        initHookState).reconnectAttempts = 1
    ∧ (runHook 5 (disconnectTrace ++ [.sockClose 0, .timerFire])
        initHookState).sockets.length = 2
    ∧ (runHook 5 (disconnectTrace ++ [.sockClose 0, .timerFire])
        initHookState).connectionStatus = .connecting := by
  refine ⟨rfl, rfl, rfl, rfl, rfl, rfl⟩

/-! ### C7 — the reconnection bound

The run in which every connection attempt fails: the initial `connect()`
produces socket 0, whose close triggers retry 1 (socket 1), ... each retry
`k+1` is the pair "socket `k` closes, the reconnect timer fires".  After the
socket of the last allowed retry closes the machine is exhausted. -/

/-- One failed retry cycle: the current socket `k` closes (scheduling the
retry), then the reconnect timer fires (constructing socket `k + 1`). -/
def retryPair (k : Nat) : List HookEvent := [.sockClose k, .timerFire]

/-- Trace of `j` consecutive failed retry cycles starting at socket `k`. -/
def retryPairs : Nat → Nat → List HookEvent
  | _, 0 => []
  | k, j + 1 => retryPair k ++ retryPairs (k + 1) j

/-- The complete all-attempts-fail trace for an attempt cap of `m`: the
initial `connect()`, `m` failed retry cycles, and the close of the last
retry's socket. -/
def failTrace (m : Nat) : List HookEvent :=
  [.connectCall] ++ retryPairs 0 m ++ [.sockClose m]

/-- Hook state in the middle of the failing run: sockets `0 .. k - 1` have
closed, socket `k` is the in-flight attempt, the counter records `k`
retries. -/
def retryState (k : Nat) : HookState :=
  { sockets := List.replicate k SockPhase.closed ++ [SockPhase.connecting]
    wsRef := some k
    isConnected := false
    connectionStatus := .connecting
    reconnectTimer := false
    reconnectAttempts := k
    pingActive := false
    lastError := none }

/-- Hook state after the last allowed retry's socket has closed with the
attempt counter at the cap: every socket closed, no pending timer, status
`disconnected`. -/
def exhaustedState (m : Nat) : HookState :=
  { sockets := List.replicate m SockPhase.closed ++ [SockPhase.closed]
    wsRef := some m
    isConnected := false
    connectionStatus := .disconnected
    reconnectTimer := false
    reconnectAttempts := m
    pingActive := false
    lastError := none }

/-- Indexing just past `k` copies of `c` finds the appended element. -/
theorem replicate_append_get (k : Nat) (c x : α) :
    (List.replicate k c ++ [x]).get? k = some x := by
  induction k with
  | zero => rfl
  | succ k ih => simp [List.replicate_succ, ih]

/-- Setting the element just past `k` copies of `c` replaces the appended
element. -/
theorem replicate_append_set (k : Nat) (c x y : α) :
    (List.replicate k c ++ [x]).set k y = List.replicate k c ++ [y] := by
  induction k with
  | zero => rfl
  | succ k ih => simp [List.replicate_succ, ih]

/-- Running a concatenated event list is running the two parts in turn. -/
theorem runHook_append (m : Nat) (a b : List HookEvent) (s : HookState) :
    runHook m (a ++ b) s = runHook m b (runHook m a s) := by
  simp [runHook, List.foldl_append]

/-- The initial `connect()` of the failing run: from the initial state to
in-flight attempt 0. -/
theorem connectCall_from_init (m : Nat) :
    hookStep m .connectCall initHookState = retryState 0 := rfl

/-- One failed retry cycle advances the failing run by one attempt (as long
as the counter is below the cap, the `onclose` handler schedules the next
attempt and the fired timer constructs the next socket). -/
theorem retry_pair_step (m k : Nat) (hk : k < m) :
    runHook m (retryPair k) (retryState k) = retryState (k + 1) := by
  have h1 : hookStep m (.sockClose k) (retryState k)
      = { sockets := List.replicate k SockPhase.closed ++ [SockPhase.closed]
          wsRef := some k
          isConnected := false
          connectionStatus := .disconnected
          reconnectTimer := true
          reconnectAttempts := k + 1
          pingActive := false
          lastError := none } := by
    simp [hookStep, sockCloseStep, retryState, replicate_append_get,
      replicate_append_set, hk]
  show hookStep m .timerFire (hookStep m (.sockClose k) (retryState k)) = _
  rw [h1]
  simp [hookStep, timerFireStep, connectFn, cleanup, retryState,
    replicate_append_get, List.replicate_succ', List.append_assoc]

/-- Running `j` failed retry cycles from attempt `k` reaches attempt
`k + j`, provided the cap is not hit in between. -/
theorem runHook_retryPairs (m : Nat) :
    ∀ (j k : Nat), k + j ≤ m →
      runHook m (retryPairs k j) (retryState k) = retryState (k + j) := by
  intro j
  induction j with
  | zero => intro k _; rfl
  | succ j ih =>
      intro k hk
      show runHook m (retryPair k ++ retryPairs (k + 1) j) _ = _
      rw [runHook_append, retry_pair_step m k (by omega)]
      rw [show k + (j + 1) = (k + 1) + j by omega]
      exact ih (k + 1) (by omega)

/-- The close of the last retry's socket finds the counter at the cap: no
further attempt is scheduled and the machine is exhausted. -/
theorem final_close_step (m : Nat) :
    hookStep m (.sockClose m) (retryState m) = exhaustedState m := by
  simp [hookStep, sockCloseStep, retryState, exhaustedState,
    replicate_append_get, replicate_append_set, Nat.lt_irrefl]

/-- The complete failing run: from the initial state, `m` consecutive failed
reconnects exhaust the machine. -/
theorem failTrace_exhausts (m : Nat) :
    runHook m (failTrace m) initHookState = exhaustedState m := by
  show runHook m ([.connectCall] ++ (retryPairs 0 m ++ [.sockClose m]))
      initHookState = _
  rw [runHook_append, runHook_append]
  have h0 : runHook m [HookEvent.connectCall] initHookState = retryState 0 :=
    connectCall_from_init m
  rw [h0, runHook_retryPairs m m 0 (by omega)]
  show hookStep m (.sockClose m) (retryState (0 + m)) = _
  rw [Nat.zero_add]
  exact final_close_step m

/-- A hook state from which no further connection attempt can arise without
an explicit `connect()`: status `disconnected`, no pending reconnect timer,
`n` sockets all closed. -/
def IsStuck (n : Nat) (s : HookState) : Prop :=
  s.connectionStatus = .disconnected
  ∧ s.reconnectTimer = false
  ∧ s.sockets.length = n
  ∧ ∀ ph ∈ s.sockets, ph = SockPhase.closed

/-- Every event except a `connect()` call preserves a stuck state: the timer
cannot fire (none is pending), no socket can open, close or error (all are
closed, so their handlers cannot fire), and `disconnect()` keeps the status
`disconnected`.  In particular no socket is ever constructed. -/
theorem stuck_preserved (m n : Nat) (e : HookEvent) (s : HookState)
    (hs : IsStuck n s) (he : e ≠ .connectCall) :
    IsStuck n (hookStep m e s) := by
  obtain ⟨h1, h2, h3, h4⟩ := hs
  cases e with
  | connectCall => exact absurd rfl he
  | disconnectCall =>
      exact ⟨rfl, rfl, h3, h4⟩
  | timerFire =>
      simp only [hookStep, timerFireStep, h2, if_false, Bool.false_eq_true]
      exact ⟨h1, h2, h3, h4⟩
  | sockOpen i =>
      cases hg : s.sockets.get? i with
      | none =>
          rw [List.get?_eq_getElem?] at hg
          have hno : hookStep m (.sockOpen i) s = s := by
            simp [hookStep, sockOpenStep, hg]
          rw [hno]; exact ⟨h1, h2, h3, h4⟩
      | some ph =>
          have hph : ph = SockPhase.closed := h4 ph (List.get?_mem hg)
          subst hph
          rw [List.get?_eq_getElem?] at hg
          have hno : hookStep m (.sockOpen i) s = s := by
            simp [hookStep, sockOpenStep, hg]
          rw [hno]; exact ⟨h1, h2, h3, h4⟩
  | sockClose i =>
      cases hg : s.sockets.get? i with
      | none =>
          rw [List.get?_eq_getElem?] at hg
          have hno : hookStep m (.sockClose i) s = s := by
            simp [hookStep, sockCloseStep, hg]
          rw [hno]; exact ⟨h1, h2, h3, h4⟩
      | some ph =>
          have hph : ph = SockPhase.closed := h4 ph (List.get?_mem hg)
          subst hph
          rw [List.get?_eq_getElem?] at hg
          have hno : hookStep m (.sockClose i) s = s := by
            simp [hookStep, sockCloseStep, hg]
          rw [hno]; exact ⟨h1, h2, h3, h4⟩
  | sockError i =>
      cases hg : s.sockets.get? i with
      | none =>
          rw [List.get?_eq_getElem?] at hg
          have hno : hookStep m (.sockError i) s = s := by
            simp [hookStep, sockErrorStep, hg]
          rw [hno]; exact ⟨h1, h2, h3, h4⟩
      | some ph =>
          have hph : ph = SockPhase.closed := h4 ph (List.get?_mem hg)
          subst hph
          rw [List.get?_eq_getElem?] at hg
          have hno : hookStep m (.sockError i) s = s := by
            simp [hookStep, sockErrorStep, hg]
          rw [hno]; exact ⟨h1, h2, h3, h4⟩

/-- A stuck state stays stuck under any event sequence free of `connect()`
calls. -/
theorem stuck_run (m n : Nat) (evs : List HookEvent) (s : HookState)
    (hs : IsStuck n s) (he : ∀ e ∈ evs, e ≠ HookEvent.connectCall) :
    IsStuck n (runHook m evs s) := by
  induction evs generalizing s with
  | nil => exact hs
  | cons e evs ih =>
      exact ih (hookStep m e s)
        (stuck_preserved m n e s hs (he e (List.mem_cons_self e evs)))
        (fun e' h' => he e' (List.mem_cons_of_mem e h'))

/-- C7: the attempt counter starts at 0; after the run in which the initial
connection and all `maxReconnectAttempts` scheduled reconnects fail, the
counter has been incremented once per retry up to exactly the cap, no
reconnect timer is pending, the status is `disconnected` — and it remains
`disconnected`, with no timer ever pending and no further socket ever
constructed, under every subsequent event sequence that contains no explicit
`connect()` call. -/
theorem reconnection_bound (m : Nat) (evs : List HookEvent)
    (h : ∀ e ∈ evs, e ≠ HookEvent.connectCall) :
    initHookState.reconnectAttempts = 0
    ∧ (∀ k, k ≤ m →
        (runHook m ([.connectCall] ++ retryPairs 0 k)
          initHookState).reconnectAttempts = k)
    ∧ (runHook m (failTrace m) initHookState).reconnectAttempts = m
    ∧ (runHook m (failTrace m) initHookState).connectionStatus
        = .disconnected
    ∧ (runHook m (failTrace m) initHookState).reconnectTimer = false
    ∧ (runHook m evs (runHook m (failTrace m)
        initHookState)).connectionStatus = .disconnected
    ∧ (runHook m evs (runHook m (failTrace m)
        initHookState)).reconnectTimer = false
    ∧ (runHook m evs (runHook m (failTrace m)
        initHookState)).sockets.length
      = (runHook m (failTrace m) initHookState).sockets.length := by
  have hstuck : IsStuck (m + 1) (exhaustedState m) := by
    refine ⟨rfl, rfl, by simp [exhaustedState], ?_⟩
    intro ph hph
    rcases List.mem_append.mp hph with hmem | hmem
    · exact List.eq_of_mem_replicate hmem
    · simpa using hmem
  have hrun := stuck_run m (m + 1) evs (exhaustedState m) hstuck h
  refine ⟨rfl, ?_, ?_, ?_, ?_, ?_, ?_, ?_⟩
  · intro k hk
    have : runHook m ([.connectCall] ++ retryPairs 0 k) initHookState
        = retryState k := by
      rw [runHook_append]
      have h0 : runHook m [HookEvent.connectCall] initHookState
          = retryState 0 := connectCall_from_init m
      rw [h0, runHook_retryPairs m k 0 (by omega), Nat.zero_add]
    rw [this]; rfl
  · rw [failTrace_exhausts]; rfl
  · rw [failTrace_exhausts]; rfl
  · rw [failTrace_exhausts]; rfl
  · rw [failTrace_exhausts]; exact hrun.1
  · rw [failTrace_exhausts]; exact hrun.2.1
  · rw [failTrace_exhausts]
    rw [hrun.2.2.1, hstuck.2.2.1]

/-- Witness for the reconnection bound at the repository's configuration
(`maxReconnectAttempts = 5`, WebSocketProvider.tsx line 41) and a concrete
post-exhaustion event sequence free of `connect()` calls. -/
theorem reconnection_bound_witness :
    (∀ e ∈ ([HookEvent.timerFire, .sockClose 2, .sockOpen 0,
        .disconnectCall] : List HookEvent), e ≠ HookEvent.connectCall)
    ∧ (runHook 5 (failTrace 5) initHookState).reconnectAttempts = 5
    ∧ (runHook 5 [HookEvent.timerFire, .sockClose 2, .sockOpen 0,
        .disconnectCall] (runHook 5 (failTrace 5)
          initHookState)).connectionStatus = ConnStatus.disconnected := by
  have h := reconnection_bound 5
    [HookEvent.timerFire, .sockClose 2, .sockOpen 0, .disconnectCall]
    (by decide)
  exact ⟨by decide, h.2.2.1, h.2.2.2.2.2.1⟩

end ProcessingCore
